import Mathlib

/-!
# Verification of the go-del-socials deletion pipeline

A shallow embedding, in Lean 4, of the content-deletion tool
go-del-socials: a CLI that authenticates against Reddit or Twitter/X,
pages through a user's content, deletes every item created strictly
before a cutoff date, and reports per-category tallies.

The embedding mirrors the Go source:

* pkg/reddit/reddit.go   — Client.DeleteContent and NewClient,
* pkg/twitter/twitter.go — Client.DeleteContent with its retry loop,
* cmd/go-del-socials/main.go — promptDate and promptChoice.

Network effects are made explicit: a pagination pass consumes a list of
fetch responses (one per HTTP listing call, in order), and per-item
delete calls consult an oracle giving the outcome of each attempted
delete request. Go time.Time values are modelled as integers (the
instant on a linear time line); time.Time.Before is integer strict
less-than. Besides the tallies the Go code produces, the embedded pass
also returns the trace of items visited and of items for which a delete
request was issued, so theorems can speak about which HTTP delete calls
the pass makes.
-/

namespace GoDelSocials

/-- A point on the time line (models Go time.Time; Before is <). -/
abbrev Instant := Int

/-- Outcome of one fetch (listing) HTTP call: a page, or an error.
Mirrors the (value, err) pair returned by the SDK listing calls. -/
inductive Fetch (α : Type) where
  | ok (page : α)
  | err (msg : String)
  deriving Repr, DecidableEq

namespace Reddit

/-- One item of the user listing (a post or a comment as used by
DeleteContent in pkg/reddit/reddit.go: only ID and creation time feed
the deletion decision). -/
structure Item where
  id : String
  created : Instant
  deriving Repr, DecidableEq

/-- One page of the user listing: the items plus the After continuation
cursor of the response. -/
structure Page where
  items : List Item
  after : String
  deriving Repr, DecidableEq

/-- Accumulator of one category loop of Client.DeleteContent:
the tally, plus the traces of items visited, items for which a delete
request was issued, and the fullnames sent to the delete endpoint. -/
structure Acc where
  deleted : Nat
  visited : List Item
  targeted : List Item
  calls : List String
  deriving Repr, DecidableEq

/-- The empty accumulator (counters at zero, before the loop). -/
def Acc.start : Acc := ⟨0, [], [], []⟩

/-- The body of the per-item for-loop of Client.DeleteContent
(reddit.go lines 129-145 for posts, 174-189 for comments): if the item
was created strictly before the cutoff, build the fullname by
prepending the type tag, issue the delete call, and on success bump the
tally; a delete failure only logs and continues. The delete oracle
gives the success of the HTTP delete call for a fullname. -/
def processItem (tag : String) (cutoff : Instant) (del : String → Bool)
    (acc : Acc) (p : Item) : Acc :=
  if p.created < cutoff then
    let fullname := tag ++ p.id
    let acc := { acc with targeted := acc.targeted ++ [p],
                          calls := acc.calls ++ [fullname] }
    if del fullname then { acc with deleted := acc.deleted + 1 } else acc
  else acc

/-- One category pagination loop of Client.DeleteContent (reddit.go
lines 119-153): fetch a page; a fetch error aborts the loop with the
counts so far and the error; an empty page stops the loop; otherwise
every item of the page is processed in order and the loop stops when
the response carries no After cursor. The list argument supplies the
successive fetch responses. -/
def pageLoop (tag : String) (cutoff : Instant) (del : String → Bool) :
    Acc → List (Fetch Page) → Acc × Option String
  | acc, [] => (acc, none)
  | acc, .err m :: _ => (acc, some m)
  | acc, .ok page :: rest =>
    if page.items.isEmpty then (acc, none)
    else
      let acc := { acc with visited := acc.visited ++ page.items }
      let acc := page.items.foldl (processItem tag cutoff del) acc
      if page.after = "" then (acc, none)
      else pageLoop tag cutoff del acc rest

/-- The whole of a Reddit deletion pass: the two tallies, the traces of
both category loops, the fullnames sent to the delete endpoint, and the
fetch error that aborted the pass, if any. -/
structure Run where
  postsDeleted : Nat
  commentsDeleted : Nat
  visitedPosts : List Item
  targetedPosts : List Item
  visitedComments : List Item
  targetedComments : List Item
  calls : List String
  error : Option String
  deriving Repr, DecidableEq

/-- Client.DeleteContent (reddit.go lines 107-201): run the posts loop
when the selector is all or posts, and, unless it aborted, the comments
loop when the selector is all or comments. Posts use fullname tag t3_,
comments t1_. A fetch error ends the pass immediately with the counts
accumulated so far. -/
def DeleteContent (contentType : String) (cutoff : Instant)
    (del : String → Bool)
    (postPages commentPages : List (Fetch Page)) : Run :=
  let (pAcc, pErr) :=
    if contentType == "all" || contentType == "posts" then
      pageLoop "t3_" cutoff del Acc.start postPages
    else (Acc.start, none)
  match pErr with
  | some e =>
    { postsDeleted := pAcc.deleted, commentsDeleted := 0,
      visitedPosts := pAcc.visited, targetedPosts := pAcc.targeted,
      visitedComments := [], targetedComments := [],
      calls := pAcc.calls, error := some e }
  | none =>
    let (cAcc, cErr) :=
      if contentType == "all" || contentType == "comments" then
        pageLoop "t1_" cutoff del Acc.start commentPages
      else (Acc.start, none)
    { postsDeleted := pAcc.deleted, commentsDeleted := cAcc.deleted,
      visitedPosts := pAcc.visited, targetedPosts := pAcc.targeted,
      visitedComments := cAcc.visited, targetedComments := cAcc.targeted,
      calls := pAcc.calls ++ cAcc.calls, error := cErr }

end Reddit

namespace Twitter

/-- A tweet as consumed by Client.DeleteContent
(pkg/twitter/twitter.go): id, text, creation time, and the types of the
referenced-tweet entries (an absent ReferencedTweets field is the empty
list). -/
structure Tweet where
  id : String
  text : String
  createdAt : Instant
  referencedTweets : List String
  deriving Repr, DecidableEq

/-- The reply classification of twitter.go lines 188-196: a tweet is a
reply iff some referenced-tweet entry has type replied_to. -/
def isReply (t : Tweet) : Bool :=
  t.referencedTweets.any (· == "replied_to")

/-- The selector gate of twitter.go lines 211-213. -/
def selectorMatches (contentType : String) (reply : Bool) : Bool :=
  contentType == "all" ||
    (contentType == "tweets" && !reply) ||
    (contentType == "replies" && reply)

/-- Outcome of one managetweet.Delete HTTP call: success, an HTTP 429
rate-limit error, or any other error. -/
inductive DelResult where
  | ok
  | rateLimited
  | failed (msg : String)
  deriving Repr, DecidableEq

/-- The retry bound maxRetries of twitter.go line 155. -/
def maxRetries : Nat := 3

/-- The retry for-loop of twitter.go lines 221-235, recursed on the
remaining loop iterations: each iteration issues one delete call (the
oracle maps the attempt index to its outcome); success breaks out, a
429 sleeps 15 minutes and continues (the for-loop post-statement still
increments retry), any other error logs and breaks. Returns whether the
delete succeeded and how many delete calls were issued. -/
def deleteRetryGo (del : Nat → DelResult) : Nat → Nat → Bool × Nat
  | attempt, 0 => (false, attempt)
  | attempt, rem + 1 =>
    match del attempt with
    | .ok => (true, attempt + 1)
    | .rateLimited => deleteRetryGo del (attempt + 1) rem
    | .failed _ => (false, attempt + 1)

/-- The whole retry loop, started at retry index 0 with maxRetries
iterations available. -/
def deleteWithRetry (del : Nat → DelResult) : Bool × Nat :=
  deleteRetryGo del 0 maxRetries

/-- Accumulator of the Twitter pass: the two tallies plus the traces of
tweets visited and of tweets for which a delete request was issued. -/
structure Acc where
  tweetsDeleted : Nat
  repliesDeleted : Nat
  visited : List Tweet
  targeted : List Tweet
  deriving Repr, DecidableEq

/-- The empty accumulator. -/
def Acc.start : Acc := ⟨0, 0, [], []⟩

/-- The body of the per-tweet for-loop of Client.DeleteContent
(twitter.go lines 185-252): only tweets created strictly before the
cutoff are considered; the reply flag is computed; a tweet whose ID
resolves to the empty string is skipped; if the selector matches, the
delete retry loop runs (the oracle maps tweet ID and attempt index to
the outcome of that delete call) and on overall success the reply or
tweet tally is bumped. -/
def processTweet (contentType : String) (cutoff : Instant)
    (del : String → Nat → DelResult) (acc : Acc) (t : Tweet) : Acc :=
  if t.createdAt < cutoff then
    let reply := isReply t
    if t.id = "" then acc
    else if selectorMatches contentType reply then
      let acc := { acc with targeted := acc.targeted ++ [t] }
      if (deleteWithRetry (del t.id)).1 then
        if reply then { acc with repliesDeleted := acc.repliesDeleted + 1 }
        else { acc with tweetsDeleted := acc.tweetsDeleted + 1 }
      else acc
    else acc
  else acc

/-- One page of the tweet timeline: the Data list and the Meta
NextToken of the response. -/
structure Page where
  data : List Tweet
  nextToken : String
  deriving Repr, DecidableEq

/-- Outcome of one timeline.ListTweets HTTP call: a page, an HTTP 429
rate-limit error, or any other error. -/
inductive TFetch where
  | ok (page : Page)
  | rateLimited
  | err (msg : String)
  deriving Repr, DecidableEq

/-- The pagination loop of Client.DeleteContent (twitter.go lines
157-263): fetch a page; a 429 fetch error sleeps 15 minutes and retries
the same request (consuming the next response of the stream); any other
fetch error aborts the pass with the counts so far; an empty Data list
stops the loop; otherwise every tweet of the page is processed in order
and the loop stops when the response carries no NextToken. -/
def pageLoop (contentType : String) (cutoff : Instant)
    (del : String → Nat → DelResult) :
    Acc → List TFetch → Acc × Option String
  | acc, [] => (acc, none)
  | acc, .rateLimited :: rest => pageLoop contentType cutoff del acc rest
  | acc, .err m :: _ => (acc, some m)
  | acc, .ok page :: rest =>
    if page.data.isEmpty then (acc, none)
    else
      let acc := { acc with visited := acc.visited ++ page.data }
      let acc := page.data.foldl (processTweet contentType cutoff del) acc
      if page.nextToken = "" then (acc, none)
      else pageLoop contentType cutoff del acc rest

/-- Client.DeleteContent (twitter.go lines 135-266): run the pagination
loop from the empty accumulator over the stream of fetch responses. -/
def DeleteContent (contentType : String) (cutoff : Instant)
    (del : String → Nat → DelResult) (pages : List TFetch) :
    Acc × Option String :=
  pageLoop contentType cutoff del Acc.start pages

end Twitter

namespace Reddit

/-- The body of the token-endpoint HTTP response, as seen by the JSON
decoder of NewClient (reddit.go lines 65-71): either it does not decode
into the access-token struct, or it decodes and yields the access_token
field (the empty string when the field is absent, as for any JSON
object without it). -/
inductive TokenBody where
  | malformed
  | decoded (accessToken : String)
  deriving Repr, DecidableEq

/-- The outcome of the token-endpoint HTTP exchange of NewClient: the
transport either fails outright or delivers a response with a status
code and a body. -/
inductive TokenExchange where
  | transportErr (msg : String)
  | response (statusCode : Nat) (body : TokenBody)
  deriving Repr, DecidableEq

/-- The token-acquisition step of NewClient (reddit.go lines 43-78):
a transport failure or an undecodable body is an error; otherwise the
decoded access_token becomes the client's bearer token. The status code
of the response is never consulted. -/
def newClientToken : TokenExchange → Except String String
  | .transportErr m => .error ("failed to get token: " ++ m)
  | .response _ .malformed => .error "failed to decode token response"
  | .response _ (.decoded tok) => .ok tok

end Reddit

namespace CLI

/-- Drop leading and trailing whitespace (Go strings.TrimSpace) on a
character list. -/
def trimChars (cs : List Char) : List Char :=
  ((cs.dropWhile Char.isWhitespace).reverse.dropWhile Char.isWhitespace).reverse

/-- Split a character list on a separator character (Go strings.Split
with a one-character separator): the empty input gives one empty
segment, and every separator occurrence starts a new segment. -/
def splitSeg (sep : Char) : List Char → List (List Char)
  | [] => [[]]
  | c :: cs =>
    if c = sep then [] :: splitSeg sep cs
    else
      match splitSeg sep cs with
      | [] => [[c]]
      | seg :: rest => (c :: seg) :: rest

/-- Digits folded into a number. -/
def digitsToNat (ds : List Char) : Nat :=
  ds.foldl (fun a c => a * 10 + (c.toNat - 48)) 0

/-- One percent-d conversion of fmt.Sscanf: skip leading whitespace,
read an optional sign and at least one decimal digit, and return the
value together with the unread remainder; no digit is a scan error. -/
def scanInt (cs : List Char) : Option (Int × List Char) :=
  let cs := cs.dropWhile Char.isWhitespace
  let core : List Char → Option (Nat × List Char) := fun l =>
    let ds := l.takeWhile Char.isDigit
    if ds.isEmpty then none
    else some (digitsToNat ds, l.dropWhile Char.isDigit)
  match cs with
  | '-' :: rest => (core rest).map (fun p => (-(p.1 : Int), p.2))
  | '+' :: rest => (core rest).map (fun p => ((p.1 : Int), p.2))
  | _ => (core cs).map (fun p => ((p.1 : Int), p.2))

/-- fmt.Sscanf with format percent-d: the leading integer (the
remainder is ignored, as Sscanf ignores unconsumed input). -/
def sscanfD (cs : List Char) : Option Int :=
  (scanInt cs).map (·.1)

/-- fmt.Sscanf with format percent-d dash percent-d: an integer, a
literal dash, and a second integer. -/
def sscanfDD (cs : List Char) : Option (Int × Int) :=
  match scanInt cs with
  | none => none
  | some (y, rest) =>
    match rest with
    | '-' :: rest2 => (scanInt rest2).map (fun p => (y, p.1))
    | _ => none

/-- A calendar date (the result of promptDate; Go time.Date at UTC
midnight). -/
structure Date where
  year : Int
  month : Nat
  day : Nat
  deriving Repr, DecidableEq

/-- Gregorian leap year (Go time package rule). -/
def isLeapYear (y : Int) : Bool :=
  y % 4 == 0 && (y % 100 != 0 || y % 400 == 0)

/-- Days in a month of a year (Go time package). -/
def daysInMonth (y : Int) (m : Nat) : Nat :=
  match m with
  | 1 => 31 | 2 => if isLeapYear y then 29 else 28
  | 3 => 31 | 4 => 30 | 5 => 31 | 6 => 30 | 7 => 31
  | 8 => 31 | 9 => 30 | 10 => 31 | 11 => 30 | 12 => 31
  | _ => 0

/-- go time.Parse with layout 2006-01-02: exactly four digits, a dash,
two digits, a dash and two digits, nothing trailing; the month must be
in 1..12 and the day in 1..days-of-that-month, else the parse errors
(month or day out of range). -/
def parseFullDate (cs : List Char) : Option Date :=
  match cs with
  | [y1, y2, y3, y4, h1, m1, m2, h2, d1, d2] =>
    if (y1.isDigit && y2.isDigit && y3.isDigit && y4.isDigit &&
        h1 = '-' && m1.isDigit && m2.isDigit &&
        h2 = '-' && d1.isDigit && d2.isDigit : Bool) then
      let y : Int := (digitsToNat [y1, y2, y3, y4] : Nat)
      let m := digitsToNat [m1, m2]
      let d := digitsToNat [d1, d2]
      if 1 ≤ m ∧ m ≤ 12 ∧ 1 ≤ d ∧ d ≤ daysInMonth y m then
        some ⟨y, m, d⟩
      else none
    else none
  | _ => none

/-- promptDate (cmd/go-del-socials/main.go lines 87-134) applied to one
line of input: trim it; blank input returns the default; otherwise
split on dashes and dispatch on the number of segments — one segment
scans a year and resolves to January 1, two segments scan year and
month (month must lie in 1..12) and resolve to day 1, three segments
parse a full date, anything else is an error. -/
def promptDate (input : String) (defaultDate : Date) : Except String Date :=
  let cs := trimChars input.toList
  if cs.isEmpty then .ok defaultDate
  else
    match (splitSeg '-' cs).length with
    | 1 =>
      match sscanfD cs with
      | none => .error "invalid year format"
      | some y => .ok ⟨y, 1, 1⟩
    | 2 =>
      match sscanfDD cs with
      | none => .error "invalid year-month format"
      | some (y, m) =>
        if m < 1 ∨ 12 < m then
          .error "invalid month: must be between 1 and 12"
        else .ok ⟨y, m.toNat, 1⟩
    | 3 =>
      match parseFullDate cs with
      | none => .error "invalid date format"
      | some d => .ok d
    | _ => .error "invalid date format. Use YYYY or YYYY-MM or YYYY-MM-DD"

end CLI

namespace CLI

theorem splitSeg_nil (sep : Char) : splitSeg sep [] = [[]] := rfl

theorem trim_nonEmpty_of_splitSeg_length (input : String) (n : Nat)
    (hn : 2 ≤ n)
    (h : (splitSeg '-' (trimChars input.toList)).length = n) :
    (trimChars input.toList).isEmpty = false := by
  cases hcs : trimChars input.toList with
  | nil => rw [hcs, splitSeg_nil] at h; simp at h; omega
  | cons a l => rfl

theorem promptDate_of_length_two (input : String) (d : Date)
    (h : (splitSeg '-' (trimChars input.toList)).length = 2) :
    promptDate input d =
      match sscanfDD (trimChars input.toList) with
      | none => .error "invalid year-month format"
      | some (y, m) =>
        if m < 1 ∨ 12 < m then
          .error "invalid month: must be between 1 and 12"
        else .ok ⟨y, m.toNat, 1⟩ := by
  have hne := trim_nonEmpty_of_splitSeg_length input 2 (by norm_num) h
  unfold promptDate
  simp only [hne, Bool.false_eq_true, if_false, h]

theorem promptDate_of_length_three (input : String) (d : Date)
    (h : (splitSeg '-' (trimChars input.toList)).length = 3) :
    promptDate input d =
      match parseFullDate (trimChars input.toList) with
      | none => .error "invalid date format"
      | some dt => .ok dt := by
  have hne := trim_nonEmpty_of_splitSeg_length input 3 (by norm_num) h
  unfold promptDate
  simp only [hne, Bool.false_eq_true, if_false, h]

theorem promptDate_of_length_one (input : String) (d : Date)
    (hne : (trimChars input.toList).isEmpty = false)
    (h : (splitSeg '-' (trimChars input.toList)).length = 1) :
    promptDate input d =
      match sscanfD (trimChars input.toList) with
      | none => .error "invalid year format"
      | some y => .ok ⟨y, 1, 1⟩ := by
  unfold promptDate
  simp only [hne, Bool.false_eq_true, if_false, h]

end CLI

/-!
## Pagination against a deterministic provider

For the termination claim the fetch stream is replaced by a provider: a
function from the continuation cursor to the page the API returns for
it. The pass starts from the zero-value cursor (the empty string) and
follows the cursors the provider hands back, exactly as the Go loops
feed resp.After or Meta.NextToken into the next listing call. The loop
is given fuel; running out of fuel returns none, so a some result shows
the loop stopped by its own break conditions within the fuel bound. -/

namespace Reddit

/-- The cursor reached after n page fetches starting from a given
cursor (the cursor chain of the DeleteContent pagination loop, which
feeds each response's After into the next listing call). -/
def cursorFrom (provider : String → Page) (cursor : String) : Nat → String
  | 0 => cursor
  | n + 1 => cursorFrom provider (provider cursor).after n

/-- The break condition of the pagination loop at step n of the cursor
chain from the zero-value After: the fetched page has no items, or
carries no After cursor. -/
def stopsAt (provider : String → Page) (n : Nat) : Prop :=
  (provider (cursorFrom provider "" n)).items = [] ∨
    (provider (cursorFrom provider "" n)).after = ""

/-- The pagination loop of Client.DeleteContent run against a provider
with fuel: fetch the page for the cursor, stop on an empty page (it
contributes no items) or on an empty After cursor (after processing the
page), else recurse on the returned cursor. Returns the pages an
unbounded loop would process, or none if the fuel runs out first. -/
def fetchPages (provider : String → Page) : Nat → String → Option (List Page)
  | 0, _ => none
  | fuel + 1, cursor =>
    let page := provider cursor
    if page.items.isEmpty then some []
    else if page.after = "" then some [page]
    else (fetchPages provider fuel page.after).map (page :: ·)

end Reddit

namespace Twitter

/-- The cursor reached after n page fetches starting from a given
token (the token chain of the DeleteContent pagination loop, which
feeds each response's Meta NextToken into the next listing call). -/
def cursorFrom (provider : String → Page) (cursor : String) : Nat → String
  | 0 => cursor
  | n + 1 => cursorFrom provider (provider cursor).nextToken n

/-- The break condition of the pagination loop at step n of the token
chain started before any PaginationToken is set: the fetched page has
an empty Data list, or an empty NextToken. -/
def stopsAt (provider : String → Page) (n : Nat) : Prop :=
  (provider (cursorFrom provider "" n)).data = [] ∨
    (provider (cursorFrom provider "" n)).nextToken = ""

/-- The pagination loop of Client.DeleteContent run against a provider
with fuel: fetch the page for the cursor, stop on an empty Data list or
on an empty NextToken (after processing the page), else recurse on the
returned token. Returns the pages an unbounded loop would process, or
none if the fuel runs out first. -/
def fetchPages (provider : String → Page) : Nat → String → Option (List Page)
  | 0, _ => none
  | fuel + 1, cursor =>
    let page := provider cursor
    if page.data.isEmpty then some []
    else if page.nextToken = "" then some [page]
    else (fetchPages provider fuel page.nextToken).map (page :: ·)

end Twitter

/-!
## Characterizing the Reddit pass

The pagination loop is characterized in closed form: the items it
visits and the error it ends with are functions of the fetch responses
alone, and the targeted items, delete calls and the tally are filters
and maps over the visited items. Every deletion claim about the Reddit
pass follows from these equations. -/

namespace Reddit

/-- The items the pagination loop walks over for a given stream of
fetch responses: nothing after a fetch error, nothing from an empty
page, and nothing past a page with no After cursor. -/
def pagesVisited : List (Fetch Page) → List Item
  | [] => []
  | .err _ :: _ => []
  | .ok page :: rest =>
    if page.items.isEmpty then []
    else page.items ++ (if page.after = "" then [] else pagesVisited rest)

/-- The fetch error the pagination loop surfaces for a given stream of
fetch responses, if any. -/
def pagesError : List (Fetch Page) → Option String
  | [] => none
  | .err m :: _ => some m
  | .ok page :: rest =>
    if page.items.isEmpty then none
    else if page.after = "" then none
    else pagesError rest

/-- Deletion eligibility: created strictly before the cutoff. -/
def eligible (cutoff : Instant) (p : Item) : Bool :=
  p.created < cutoff

/-- Eligible and the delete call for the item's fullname succeeds. -/
def deletable (tag : String) (cutoff : Instant) (del : String → Bool)
    (p : Item) : Bool :=
  eligible cutoff p && del (tag ++ p.id)

theorem foldl_processItem_char (tag : String) (cutoff : Instant)
    (del : String → Bool) (items : List Item) (acc : Acc) :
    items.foldl (processItem tag cutoff del) acc =
      { deleted := acc.deleted +
          (items.filter (deletable tag cutoff del)).length,
        visited := acc.visited,
        targeted := acc.targeted ++ items.filter (eligible cutoff),
        calls := acc.calls ++
          (items.filter (eligible cutoff)).map (fun p => tag ++ p.id) } := by
  induction items generalizing acc with
  | nil => simp
  | cons p rest ih =>
    rw [List.foldl_cons, ih]
    by_cases h : p.created < cutoff
    · by_cases hd : del (tag ++ p.id)
      · simp [processItem, eligible, deletable, h, hd, List.filter_cons]
        omega
      · simp [processItem, eligible, deletable, h, hd, List.filter_cons]
    · simp [processItem, eligible, deletable, h, List.filter_cons]

theorem redditPageLoop_char (tag : String) (cutoff : Instant)
    (del : String → Bool) (resp : List (Fetch Page)) (acc : Acc) :
    pageLoop tag cutoff del acc resp =
      ({ deleted := acc.deleted +
           ((pagesVisited resp).filter (deletable tag cutoff del)).length,
         visited := acc.visited ++ pagesVisited resp,
         targeted := acc.targeted ++
           (pagesVisited resp).filter (eligible cutoff),
         calls := acc.calls ++
           ((pagesVisited resp).filter (eligible cutoff)).map
             (fun p => tag ++ p.id) },
       pagesError resp) := by
  induction resp generalizing acc with
  | nil => simp [pageLoop, pagesVisited, pagesError]
  | cons f rest ih =>
    cases f with
    | err m => simp [pageLoop, pagesVisited, pagesError]
    | ok page =>
      by_cases he : page.items.isEmpty
      · simp [pageLoop, pagesVisited, pagesError, he]
      · by_cases ha : page.after = ""
        · simp [pageLoop, pagesVisited, pagesError, he, ha,
                foldl_processItem_char]
        · simp only [pageLoop, pagesVisited, pagesError, he, ha,
                     if_false, if_true, Bool.false_eq_true,
                     foldl_processItem_char, ih]
          simp [List.filter_append, Nat.add_assoc]

/-- Does the selector enable the posts category loop. -/
def phaseOnPosts (ct : String) : Bool := ct == "all" || ct == "posts"

/-- Does the selector enable the comments category loop. -/
def phaseOnComments (ct : String) : Bool := ct == "all" || ct == "comments"

/-- The posts the whole pass walks over: those of the posts loop when
the selector enables it. -/
def postsSeen (ct : String) (pp : List (Fetch Page)) : List Item :=
  if phaseOnPosts ct then pagesVisited pp else []

/-- The fetch error of the posts loop, when it runs. -/
def postsErr (ct : String) (pp : List (Fetch Page)) : Option String :=
  if phaseOnPosts ct then pagesError pp else none

/-- The comments the whole pass walks over: those of the comments loop
when the selector enables it and the posts loop did not abort. -/
def commentsSeen (ct : String) (pp cp : List (Fetch Page)) : List Item :=
  if postsErr ct pp = none ∧ phaseOnComments ct then pagesVisited cp else []

/-- The fetch error of the comments loop, when it runs. -/
def commentsErr (ct : String) (pp cp : List (Fetch Page)) : Option String :=
  if postsErr ct pp = none ∧ phaseOnComments ct then pagesError cp else none

theorem redditDeleteContent_char (ct : String) (cutoff : Instant)
    (del : String → Bool) (pp cp : List (Fetch Page)) :
    DeleteContent ct cutoff del pp cp =
      { postsDeleted :=
          ((postsSeen ct pp).filter (deletable "t3_" cutoff del)).length,
        commentsDeleted :=
          ((commentsSeen ct pp cp).filter (deletable "t1_" cutoff del)).length,
        visitedPosts := postsSeen ct pp,
        targetedPosts := (postsSeen ct pp).filter (eligible cutoff),
        visitedComments := commentsSeen ct pp cp,
        targetedComments := (commentsSeen ct pp cp).filter (eligible cutoff),
        calls :=
          ((postsSeen ct pp).filter (eligible cutoff)).map
              (fun p => "t3_" ++ p.id) ++
            ((commentsSeen ct pp cp).filter (eligible cutoff)).map
              (fun p => "t1_" ++ p.id),
        error :=
          match postsErr ct pp with
          | some e => some e
          | none => commentsErr ct pp cp } := by
  have hP : (ct == "all" || ct == "posts") = phaseOnPosts ct := rfl
  have hC : (ct == "all" || ct == "comments") = phaseOnComments ct := rfl
  by_cases hp : phaseOnPosts ct
  · have hps : postsSeen ct pp = pagesVisited pp := by simp [postsSeen, hp]
    have hpe : postsErr ct pp = pagesError pp := by simp [postsErr, hp]
    cases he : pagesError pp with
    | some e =>
      have hpes : postsErr ct pp = some e := by rw [hpe, he]
      have hcs : commentsSeen ct pp cp = [] := by simp [commentsSeen, hpes]
      have hce : commentsErr ct pp cp = none := by simp [commentsErr, hpes]
      unfold DeleteContent
      rw [hP]
      simp [hp, redditPageLoop_char, Acc.start, he, hps, hpes, hcs, hce]
    | none =>
      have hpen : postsErr ct pp = none := by rw [hpe, he]
      by_cases hc : phaseOnComments ct
      · have hcs : commentsSeen ct pp cp = pagesVisited cp := by
          simp [commentsSeen, hpen, hc]
        have hce : commentsErr ct pp cp = pagesError cp := by
          simp [commentsErr, hpen, hc]
        unfold DeleteContent
        rw [hP, hC]
        simp [hp, hc, redditPageLoop_char, Acc.start, he, hps, hpen, hcs, hce]
      · have hcs : commentsSeen ct pp cp = [] := by
          simp [commentsSeen, hc]
        have hce : commentsErr ct pp cp = none := by
          simp [commentsErr, hc]
        unfold DeleteContent
        rw [hP, hC]
        simp [hp, hc, redditPageLoop_char, Acc.start, he, hps, hpen, hcs, hce]
  · have hps : postsSeen ct pp = [] := by simp [postsSeen, hp]
    have hpen : postsErr ct pp = none := by simp [postsErr, hp]
    by_cases hc : phaseOnComments ct
    · have hcs : commentsSeen ct pp cp = pagesVisited cp := by
        simp [commentsSeen, hpen, hc]
      have hce : commentsErr ct pp cp = pagesError cp := by
        simp [commentsErr, hpen, hc]
      unfold DeleteContent
      rw [hP, hC]
      simp [hp, hc, redditPageLoop_char, Acc.start, hps, hpen, hcs, hce]
    · have hcs : commentsSeen ct pp cp = [] := by
        simp [commentsSeen, hc]
      have hce : commentsErr ct pp cp = none := by
        simp [commentsErr, hc]
      unfold DeleteContent
      rw [hP, hC]
      simp [hp, hc, hps, hpen, hcs, hce, Acc.start]

end Reddit

/-!
## Characterizing the Twitter pass

The same closed-form treatment for the Twitter pagination loop: the
tweets it visits and the error it surfaces are functions of the fetch
responses alone, the engaged tweets are a filter of the visited ones,
and each tally counts the engaged tweets of its category whose retry
loop succeeded. -/

namespace Twitter

/-- The tweets the pagination loop walks over for a given stream of
fetch responses: a 429 response is retried (skipped in the stream),
nothing comes after another fetch error, nothing from a page with an
empty Data list, and nothing past a page with an empty NextToken. -/
def pagesVisited : List TFetch → List Tweet
  | [] => []
  | .rateLimited :: rest => pagesVisited rest
  | .err _ :: _ => []
  | .ok page :: rest =>
    if page.data.isEmpty then []
    else page.data ++ (if page.nextToken = "" then [] else pagesVisited rest)

/-- The fetch error the pagination loop surfaces for a given stream of
fetch responses, if any. -/
def pagesError : List TFetch → Option String
  | [] => none
  | .rateLimited :: rest => pagesError rest
  | .err m :: _ => some m
  | .ok page :: rest =>
    if page.data.isEmpty then none
    else if page.nextToken = "" then none
    else pagesError rest

/-- A tweet the per-item loop engages the delete retry loop for:
created strictly before the cutoff, a non-empty ID, and a selector
match for its reply classification. -/
def engages (ct : String) (cutoff : Instant) (t : Tweet) : Bool :=
  decide (t.createdAt < cutoff) && !decide (t.id = "") &&
    selectorMatches ct (isReply t)

/-- An engaged original tweet whose retry loop succeeded (bumps the
tweets tally). -/
def countsAsTweet (ct : String) (cutoff : Instant)
    (del : String → Nat → DelResult) (t : Tweet) : Bool :=
  engages ct cutoff t && !isReply t && (deleteWithRetry (del t.id)).1

/-- An engaged reply whose retry loop succeeded (bumps the replies
tally). -/
def countsAsReply (ct : String) (cutoff : Instant)
    (del : String → Nat → DelResult) (t : Tweet) : Bool :=
  engages ct cutoff t && isReply t && (deleteWithRetry (del t.id)).1

theorem foldl_processTweet_char (ct : String) (cutoff : Instant)
    (del : String → Nat → DelResult) (ts : List Tweet) (acc : Acc) :
    ts.foldl (processTweet ct cutoff del) acc =
      { tweetsDeleted := acc.tweetsDeleted +
          (ts.filter (countsAsTweet ct cutoff del)).length,
        repliesDeleted := acc.repliesDeleted +
          (ts.filter (countsAsReply ct cutoff del)).length,
        visited := acc.visited,
        targeted := acc.targeted ++ ts.filter (engages ct cutoff) } := by
  induction ts generalizing acc with
  | nil => simp
  | cons t rest ih =>
    rw [List.foldl_cons, ih]
    by_cases h1 : t.createdAt < cutoff
    · by_cases h2 : t.id = ""
      · simp [processTweet, engages, countsAsTweet, countsAsReply,
              h1, h2, List.filter_cons]
      · by_cases h5 : isReply t
        · by_cases h3 : selectorMatches ct true
          · by_cases h4 : (deleteWithRetry (del t.id)).1
            · simp [processTweet, engages, countsAsTweet, countsAsReply,
                    h1, h2, h3, h4, h5, List.filter_cons]
              omega
            · simp [processTweet, engages, countsAsTweet, countsAsReply,
                    h1, h2, h3, h4, h5, List.filter_cons]
          · simp [processTweet, engages, countsAsTweet, countsAsReply,
                  h1, h2, h3, h5, List.filter_cons]
        · by_cases h3 : selectorMatches ct false
          · by_cases h4 : (deleteWithRetry (del t.id)).1
            · simp [processTweet, engages, countsAsTweet, countsAsReply,
                    h1, h2, h3, h4, h5, List.filter_cons]
              omega
            · simp [processTweet, engages, countsAsTweet, countsAsReply,
                    h1, h2, h3, h4, h5, List.filter_cons]
          · simp [processTweet, engages, countsAsTweet, countsAsReply,
                  h1, h2, h3, h5, List.filter_cons]
    · simp [processTweet, engages, countsAsTweet, countsAsReply,
            h1, List.filter_cons]

theorem twitterPageLoop_char (ct : String) (cutoff : Instant)
    (del : String → Nat → DelResult) (resp : List TFetch) (acc : Acc) :
    pageLoop ct cutoff del acc resp =
      ({ tweetsDeleted := acc.tweetsDeleted +
           ((pagesVisited resp).filter (countsAsTweet ct cutoff del)).length,
         repliesDeleted := acc.repliesDeleted +
           ((pagesVisited resp).filter (countsAsReply ct cutoff del)).length,
         visited := acc.visited ++ pagesVisited resp,
         targeted := acc.targeted ++
           (pagesVisited resp).filter (engages ct cutoff) },
       pagesError resp) := by
  induction resp generalizing acc with
  | nil => simp [pageLoop, pagesVisited, pagesError]
  | cons f rest ih =>
    cases f with
    | rateLimited => simp only [pageLoop, pagesVisited, pagesError, ih]
    | err m => simp [pageLoop, pagesVisited, pagesError]
    | ok page =>
      by_cases he : page.data.isEmpty
      · simp [pageLoop, pagesVisited, pagesError, he]
      · by_cases hn : page.nextToken = ""
        · simp [pageLoop, pagesVisited, pagesError, he, hn,
                foldl_processTweet_char]
        · simp only [pageLoop, pagesVisited, pagesError, he, hn,
                     if_false, if_true, Bool.false_eq_true,
                     foldl_processTweet_char, ih]
          simp [List.filter_append, Nat.add_assoc]

theorem twitterDeleteContent_char (ct : String) (cutoff : Instant)
    (del : String → Nat → DelResult) (pages : List TFetch) :
    DeleteContent ct cutoff del pages =
      ({ tweetsDeleted :=
           ((pagesVisited pages).filter (countsAsTweet ct cutoff del)).length,
         repliesDeleted :=
           ((pagesVisited pages).filter (countsAsReply ct cutoff del)).length,
         visited := pagesVisited pages,
         targeted := (pagesVisited pages).filter (engages ct cutoff) },
       pagesError pages) := by
  unfold DeleteContent
  rw [twitterPageLoop_char]
  simp [Acc.start]

end Twitter

/-!
## The claims -/

/-- C1: in the Reddit and Twitter DeleteContent passes, a delete call
is issued for an item only if its creation timestamp is strictly before
the cutoff: every post or comment the Reddit pass sends a delete
request for, and every tweet the Twitter pass engages its delete retry
loop for, was created strictly before the cutoff, so an item with
creation time at or after the cutoff is never targeted. -/
theorem claim_C1_strict_cutoff (ct : String) (cutoff : Instant)
    (del : String → Bool) (pp cp : List (Fetch Reddit.Page))
    (tdel : String → Nat → Twitter.DelResult) (tp : List Twitter.TFetch) :
    (∀ p ∈ (Reddit.DeleteContent ct cutoff del pp cp).targetedPosts,
        p.created < cutoff) ∧
    (∀ q ∈ (Reddit.DeleteContent ct cutoff del pp cp).targetedComments,
        q.created < cutoff) ∧
    (∀ t ∈ (Twitter.DeleteContent ct cutoff tdel tp).1.targeted,
        t.createdAt < cutoff) := by
  rw [Reddit.redditDeleteContent_char, Twitter.twitterDeleteContent_char]
  refine ⟨fun p hp => ?_, fun q hq => ?_, fun t ht => ?_⟩
  · have := (List.mem_filter.mp hp).2
    simpa [Reddit.eligible] using this
  · have := (List.mem_filter.mp hq).2
    simpa [Reddit.eligible] using this
  · have := (List.mem_filter.mp ht).2
    simp only [Twitter.engages, Bool.and_eq_true, decide_eq_true_eq] at this
    exact this.1.1

/-- C2 counterexample: a tweet whose ID resolves to the empty string,
created before the cutoff (0 < 10) and matching the active selector
(all), is fetched but the Twitter pass issues no delete attempt for it
at all — the engaged-tweet trace stays empty and both tallies stay 0 —
refuting that every eligible matching item gets exactly one delete
attempt. -/
theorem claim_C2_counterexample :
    ((0 : Instant) < 10) ∧
    Twitter.selectorMatches "all"
      (Twitter.isReply ⟨"", "hello", 0, []⟩) = true ∧
    (Twitter.DeleteContent "all" 10 (fun _ _ => .ok)
        [.ok ⟨[⟨"", "hello", 0, []⟩], ""⟩]).1.targeted = [] ∧
    (Twitter.DeleteContent "all" 10 (fun _ _ => .ok)
        [.ok ⟨[⟨"", "hello", 0, []⟩], ""⟩]).1.tweetsDeleted = 0 ∧
    (Twitter.DeleteContent "all" 10 (fun _ _ => .ok)
        [.ok ⟨[⟨"", "hello", 0, []⟩], ""⟩]).1.repliesDeleted = 0 := by
  refine ⟨by norm_num, rfl, rfl, rfl, rfl⟩

/-- C2 amended: in a pass, every fetched item with creation time
strictly before the cutoff that matches the active content-type
selector gets exactly one delete engagement, in fetch order — except
that the Twitter pass skips tweets whose ID resolves to the empty
string without any delete attempt. Formally, the Reddit targeted items
are exactly the filter of the visited ones by the cutoff test, the
delete calls sent are exactly their fullnames in order, and the Twitter
engaged tweets are exactly the filter of the visited ones by cutoff,
non-empty ID and selector match. -/
theorem claim_C2_amended_exactly_once (ct : String) (cutoff : Instant)
    (del : String → Bool) (pp cp : List (Fetch Reddit.Page))
    (tdel : String → Nat → Twitter.DelResult) (tp : List Twitter.TFetch) :
    ((Reddit.DeleteContent ct cutoff del pp cp).targetedPosts =
      (Reddit.DeleteContent ct cutoff del pp cp).visitedPosts.filter
        (Reddit.eligible cutoff)) ∧
    ((Reddit.DeleteContent ct cutoff del pp cp).targetedComments =
      (Reddit.DeleteContent ct cutoff del pp cp).visitedComments.filter
        (Reddit.eligible cutoff)) ∧
    ((Reddit.DeleteContent ct cutoff del pp cp).calls =
      (Reddit.DeleteContent ct cutoff del pp cp).targetedPosts.map
          (fun p => "t3_" ++ p.id) ++
        (Reddit.DeleteContent ct cutoff del pp cp).targetedComments.map
          (fun p => "t1_" ++ p.id)) ∧
    ((Twitter.DeleteContent ct cutoff tdel tp).1.targeted =
      (Twitter.DeleteContent ct cutoff tdel tp).1.visited.filter
        (Twitter.engages ct cutoff)) := by
  rw [Reddit.redditDeleteContent_char, Twitter.twitterDeleteContent_char]
  exact ⟨rfl, rfl, rfl, rfl⟩

/-- C3: selector gating. With selector posts the Reddit pass never even
fetches (let alone deletes) a comment, and with selector comments it
never touches a post; with selector all, every eligible item from both
category loops is targeted. With selector tweets the Twitter pass never
engages a delete for a reply, with selector replies never for an
original tweet, and with selector all it engages every fetched tweet
that passes the cutoff and has a non-empty ID, reply or not. A tweet is
classified as a reply iff some referenced-tweet entry has type
replied_to. -/
theorem claim_C3_selector_gating (cutoff : Instant)
    (del : String → Bool) (pp cp : List (Fetch Reddit.Page))
    (tdel : String → Nat → Twitter.DelResult) (tp : List Twitter.TFetch)
    (t0 : Twitter.Tweet) :
    ((Reddit.DeleteContent "posts" cutoff del pp cp).visitedComments = [] ∧
     (Reddit.DeleteContent "posts" cutoff del pp cp).targetedComments = []) ∧
    ((Reddit.DeleteContent "comments" cutoff del pp cp).visitedPosts = [] ∧
     (Reddit.DeleteContent "comments" cutoff del pp cp).targetedPosts = []) ∧
    ((Reddit.DeleteContent "all" cutoff del pp cp).targetedPosts =
        (Reddit.pagesVisited pp).filter (Reddit.eligible cutoff) ∧
     (Reddit.pagesError pp = none →
        (Reddit.DeleteContent "all" cutoff del pp cp).targetedComments =
          (Reddit.pagesVisited cp).filter (Reddit.eligible cutoff))) ∧
    (∀ t ∈ (Twitter.DeleteContent "tweets" cutoff tdel tp).1.targeted,
        Twitter.isReply t = false) ∧
    (∀ t ∈ (Twitter.DeleteContent "replies" cutoff tdel tp).1.targeted,
        Twitter.isReply t = true) ∧
    ((Twitter.DeleteContent "all" cutoff tdel tp).1.targeted =
      (Twitter.pagesVisited tp).filter
        (fun t => decide (t.createdAt < cutoff) && !decide (t.id = ""))) ∧
    (Twitter.isReply t0 = true ↔
      ∃ r ∈ t0.referencedTweets, r = "replied_to") := by
  refine ⟨?_, ?_, ?_, ?_, ?_, ?_, ?_⟩
  · rw [Reddit.redditDeleteContent_char]
    constructor
    · simp [Reddit.commentsSeen, Reddit.phaseOnComments]
    · simp [Reddit.commentsSeen, Reddit.phaseOnComments]
  · rw [Reddit.redditDeleteContent_char]
    constructor
    · simp [Reddit.postsSeen, Reddit.phaseOnPosts]
    · simp [Reddit.postsSeen, Reddit.phaseOnPosts]
  · rw [Reddit.redditDeleteContent_char]
    constructor
    · simp [Reddit.postsSeen, Reddit.phaseOnPosts]
    · intro he
      simp [Reddit.commentsSeen, Reddit.phaseOnComments,
            Reddit.postsErr, Reddit.phaseOnPosts, he]
  · intro t ht
    rw [Twitter.twitterDeleteContent_char] at ht
    have h := (List.mem_filter.mp ht).2
    simp only [Twitter.engages, Bool.and_eq_true] at h
    have hsel := h.2
    simp [Twitter.selectorMatches] at hsel
    exact hsel
  · intro t ht
    rw [Twitter.twitterDeleteContent_char] at ht
    have h := (List.mem_filter.mp ht).2
    simp only [Twitter.engages, Bool.and_eq_true] at h
    have hsel := h.2
    simp [Twitter.selectorMatches] at hsel
    exact hsel
  · rw [Twitter.twitterDeleteContent_char]
    refine List.filter_congr ?_
    intro t _
    simp [Twitter.engages, Twitter.selectorMatches]
  · simp [Twitter.isReply, List.any_eq_true, beq_iff_eq]

/-- C4: a failed delete call never aborts a pass. Which items a pass
visits, which it targets with delete calls, and whether it ends in a
fetch error are all independent of the delete outcomes (so a failure at
item N changes nothing about the handling of item N+1 or of later
pages), and the tallies count exactly the targeted items whose delete
call succeeded — a failed item is skipped and simply not counted. -/
theorem claim_C4_delete_failure_is_local (ct : String) (cutoff : Instant)
    (del del' : String → Bool) (pp cp : List (Fetch Reddit.Page))
    (tdel tdel' : String → Nat → Twitter.DelResult)
    (tp : List Twitter.TFetch) :
    ((Reddit.DeleteContent ct cutoff del pp cp).visitedPosts =
        (Reddit.DeleteContent ct cutoff del' pp cp).visitedPosts ∧
     (Reddit.DeleteContent ct cutoff del pp cp).visitedComments =
        (Reddit.DeleteContent ct cutoff del' pp cp).visitedComments ∧
     (Reddit.DeleteContent ct cutoff del pp cp).calls =
        (Reddit.DeleteContent ct cutoff del' pp cp).calls ∧
     (Reddit.DeleteContent ct cutoff del pp cp).error =
        (Reddit.DeleteContent ct cutoff del' pp cp).error) ∧
    ((Reddit.DeleteContent ct cutoff del pp cp).postsDeleted =
        ((Reddit.DeleteContent ct cutoff del pp cp).visitedPosts.filter
          (Reddit.deletable "t3_" cutoff del)).length ∧
     (Reddit.DeleteContent ct cutoff del pp cp).commentsDeleted =
        ((Reddit.DeleteContent ct cutoff del pp cp).visitedComments.filter
          (Reddit.deletable "t1_" cutoff del)).length) ∧
    ((Twitter.DeleteContent ct cutoff tdel tp).1.visited =
        (Twitter.DeleteContent ct cutoff tdel' tp).1.visited ∧
     (Twitter.DeleteContent ct cutoff tdel tp).1.targeted =
        (Twitter.DeleteContent ct cutoff tdel' tp).1.targeted ∧
     (Twitter.DeleteContent ct cutoff tdel tp).2 =
        (Twitter.DeleteContent ct cutoff tdel' tp).2) ∧
    ((Twitter.DeleteContent ct cutoff tdel tp).1.tweetsDeleted =
        ((Twitter.DeleteContent ct cutoff tdel tp).1.visited.filter
          (Twitter.countsAsTweet ct cutoff tdel)).length ∧
     (Twitter.DeleteContent ct cutoff tdel tp).1.repliesDeleted =
        ((Twitter.DeleteContent ct cutoff tdel tp).1.visited.filter
          (Twitter.countsAsReply ct cutoff tdel)).length) := by
  rw [Reddit.redditDeleteContent_char, Reddit.redditDeleteContent_char,
      Twitter.twitterDeleteContent_char, Twitter.twitterDeleteContent_char]
  exact ⟨⟨rfl, rfl, rfl, rfl⟩, ⟨rfl, rfl⟩, ⟨rfl, rfl, rfl⟩, rfl, rfl⟩

/-- C5: a failed page fetch aborts the whole pass at once. At any point
of a pass, a fetch response that is an error (for Twitter, an error
other than HTTP 429) makes the pagination loop return immediately with
the counts accumulated so far and that error, whatever responses would
have come later; a Twitter 429 fetch response instead retries and does
not abort. At the pass level, a fetch error in the Reddit posts loop
ends DeleteContent before the comments loop fetches anything. -/
theorem claim_C5_fetch_failure_aborts (ct tag : String) (cutoff : Instant)
    (del : String → Bool) (acc : Reddit.Acc) (e : String)
    (rest rest' : List (Fetch Reddit.Page))
    (tdel : String → Nat → Twitter.DelResult) (tacc : Twitter.Acc)
    (trest : List Twitter.TFetch)
    (pp cp : List (Fetch Reddit.Page)) :
    (Reddit.pageLoop tag cutoff del acc (.err e :: rest) = (acc, some e)) ∧
    (Reddit.pageLoop tag cutoff del acc (.err e :: rest) =
      Reddit.pageLoop tag cutoff del acc (.err e :: rest')) ∧
    (Twitter.pageLoop ct cutoff tdel tacc (.err e :: trest) =
      (tacc, some e)) ∧
    (Twitter.pageLoop ct cutoff tdel tacc (.rateLimited :: trest) =
      Twitter.pageLoop ct cutoff tdel tacc trest) ∧
    ((Reddit.DeleteContent "all" cutoff del (.err e :: pp) cp).error =
      some e) ∧
    ((Reddit.DeleteContent "all" cutoff del (.err e :: pp) cp).visitedComments
      = []) ∧
    ((Reddit.DeleteContent "all" cutoff del (.err e :: pp) cp).commentsDeleted
      = 0) := by
  refine ⟨rfl, rfl, rfl, rfl, ?_, ?_, ?_⟩ <;>
    rw [Reddit.redditDeleteContent_char] <;>
    simp [Reddit.postsErr, Reddit.commentsSeen, Reddit.phaseOnPosts,
          Reddit.pagesError]

/-- C6 counterexample: the Go retry loop increments its counter on the
429 continue as well, so a 429 does consume one of the 3 retry slots.
Against a delete endpoint that answers 429 on attempts 0, 1 and 2 and
would succeed on any later attempt, the code issues exactly 3 delete
calls and abandons the item unsuccessfully — under the claim, the three
429 retries would consume no slots and the loop would go on to the
succeeding attempt. An endpoint that always answers 429 likewise gets
exactly 3 calls, not unbounded retries of the same attempt. -/
theorem claim_C6_counterexample :
    (Twitter.deleteWithRetry
      (fun n => if n ≤ 2 then .rateLimited else .ok) = (false, 3)) ∧
    (Twitter.deleteWithRetry (fun _ => .rateLimited) = (false, 3)) := by
  constructor <;> rfl

/-- C6 amended: the Twitter per-item delete makes at most 3 delete
calls in total; every call before the last one answered 429 (each 429
sleeps 15 minutes and retries, but the retry consumes one of the 3
slots, and any other error abandons the item at once); and the delete
succeeds iff its last call does. -/
theorem claim_C6_amended_retry_semantics
    (del : Nat → Twitter.DelResult) :
    (1 ≤ (Twitter.deleteWithRetry del).2 ∧
      (Twitter.deleteWithRetry del).2 ≤ 3) ∧
    (∀ k, k + 1 < (Twitter.deleteWithRetry del).2 →
      del k = .rateLimited) ∧
    ((Twitter.deleteWithRetry del).1 = true ↔
      del ((Twitter.deleteWithRetry del).2 - 1) = .ok) := by
  cases h0 : del 0 with
  | ok =>
    have hv : Twitter.deleteWithRetry del = (true, 1) := by
      simp [Twitter.deleteWithRetry, Twitter.maxRetries,
            Twitter.deleteRetryGo, h0]
    rw [hv]
    exact ⟨⟨by norm_num, by norm_num⟩, fun k hk => absurd hk (by omega),
           by simp [h0]⟩
  | failed m =>
    have hv : Twitter.deleteWithRetry del = (false, 1) := by
      simp [Twitter.deleteWithRetry, Twitter.maxRetries,
            Twitter.deleteRetryGo, h0]
    rw [hv]
    exact ⟨⟨by norm_num, by norm_num⟩, fun k hk => absurd hk (by omega),
           by simp [h0]⟩
  | rateLimited =>
    cases h1 : del 1 with
    | ok =>
      have hv : Twitter.deleteWithRetry del = (true, 2) := by
        simp [Twitter.deleteWithRetry, Twitter.maxRetries,
              Twitter.deleteRetryGo, h0, h1]
      rw [hv]
      refine ⟨⟨by norm_num, by norm_num⟩, fun k hk => ?_, by simp [h1]⟩
      have hk0 : k = 0 := by omega
      rw [hk0]; exact h0
    | failed m =>
      have hv : Twitter.deleteWithRetry del = (false, 2) := by
        simp [Twitter.deleteWithRetry, Twitter.maxRetries,
              Twitter.deleteRetryGo, h0, h1]
      rw [hv]
      refine ⟨⟨by norm_num, by norm_num⟩, fun k hk => ?_, by simp [h1]⟩
      have hk0 : k = 0 := by omega
      rw [hk0]; exact h0
    | rateLimited =>
      cases h2 : del 2 with
      | ok =>
        have hv : Twitter.deleteWithRetry del = (true, 3) := by
          simp [Twitter.deleteWithRetry, Twitter.maxRetries,
                Twitter.deleteRetryGo, h0, h1, h2]
        rw [hv]
        refine ⟨⟨by norm_num, by norm_num⟩, fun k hk => ?_, by simp [h2]⟩
        have hk01 : k = 0 ∨ k = 1 := by omega
        rcases hk01 with hk0 | hk1
        · rw [hk0]; exact h0
        · rw [hk1]; exact h1
      | failed m =>
        have hv : Twitter.deleteWithRetry del = (false, 3) := by
          simp [Twitter.deleteWithRetry, Twitter.maxRetries,
                Twitter.deleteRetryGo, h0, h1, h2]
        rw [hv]
        refine ⟨⟨by norm_num, by norm_num⟩, fun k hk => ?_, by simp [h2]⟩
        have hk01 : k = 0 ∨ k = 1 := by omega
        rcases hk01 with hk0 | hk1
        · rw [hk0]; exact h0
        · rw [hk1]; exact h1
      | rateLimited =>
        have hv : Twitter.deleteWithRetry del = (false, 3) := by
          simp [Twitter.deleteWithRetry, Twitter.maxRetries,
                Twitter.deleteRetryGo, h0, h1, h2]
        rw [hv]
        refine ⟨⟨by norm_num, by norm_num⟩, fun k hk => ?_, by simp [h2]⟩
        have hk01 : k = 0 ∨ k = 1 := by omega
        rcases hk01 with hk0 | hk1
        · rw [hk0]; exact h0
        · rw [hk1]; exact h1

/-- C7: contrary to the claim, the token-acquisition step of the Reddit
client constructor never consults the HTTP status code: a non-2xx
answer from the OAuth2 token endpoint whose body still decodes as JSON
(for instance a 401 with an empty JSON object, which leaves the
access_token field empty) is accepted and yields a client with an empty
bearer token. Only a transport failure or an undecodable body is
rejected. -/
theorem claim_C7_status_code_ignored :
    (Reddit.newClientToken (.response 401 (.decoded "")) = .ok "") ∧
    (Reddit.newClientToken (.response 500 (.decoded "sometoken")) =
      .ok "sometoken") ∧
    (Reddit.newClientToken (.response 200 .malformed) =
      .error "failed to decode token response") ∧
    (Reddit.newClientToken (.transportErr "dial tcp: refused") =
      .error ("failed to get token: " ++ "dial tcp: refused")) := by
  exact ⟨rfl, rfl, rfl, rfl⟩

/-- C8: promptDate. The spec's examples hold: 2023 resolves to
2023-01-01, 2023-06 to 2023-06-01, 2023-06-15 to itself, blank input
returns the default, and 2023-13 is rejected for its month. Generally,
a year-only input resolves to January 1, a year-month input with the
month in 1..12 resolves to day 1 of that month, a month outside 1..12
fails, and an unparsable segment in any of the three shapes fails. -/
theorem claim_C8_promptDate (d : CLI.Date) :
    (CLI.promptDate "2023" d = .ok ⟨2023, 1, 1⟩) ∧
    (CLI.promptDate "2023-06" d = .ok ⟨2023, 6, 1⟩) ∧
    (CLI.promptDate "2023-06-15" d = .ok ⟨2023, 6, 15⟩) ∧
    (CLI.promptDate "" d = .ok d) ∧
    (CLI.promptDate "2023-13" d =
      .error "invalid month: must be between 1 and 12") ∧
    (∀ (input : String) (y : Int),
      (CLI.trimChars input.toList).isEmpty = false →
      (CLI.splitSeg '-' (CLI.trimChars input.toList)).length = 1 →
      CLI.sscanfD (CLI.trimChars input.toList) = some y →
      CLI.promptDate input d = .ok ⟨y, 1, 1⟩) ∧
    (∀ (input : String) (y m : Int),
      (CLI.splitSeg '-' (CLI.trimChars input.toList)).length = 2 →
      CLI.sscanfDD (CLI.trimChars input.toList) = some (y, m) →
      1 ≤ m → m ≤ 12 →
      CLI.promptDate input d = .ok ⟨y, m.toNat, 1⟩) ∧
    (∀ (input : String) (y m : Int),
      (CLI.splitSeg '-' (CLI.trimChars input.toList)).length = 2 →
      CLI.sscanfDD (CLI.trimChars input.toList) = some (y, m) →
      (m < 1 ∨ 12 < m) →
      CLI.promptDate input d =
        .error "invalid month: must be between 1 and 12") ∧
    (∀ (input : String),
      (CLI.trimChars input.toList).isEmpty = false →
      (CLI.splitSeg '-' (CLI.trimChars input.toList)).length = 1 →
      CLI.sscanfD (CLI.trimChars input.toList) = none →
      CLI.promptDate input d = .error "invalid year format") ∧
    (∀ (input : String),
      (CLI.splitSeg '-' (CLI.trimChars input.toList)).length = 2 →
      CLI.sscanfDD (CLI.trimChars input.toList) = none →
      CLI.promptDate input d = .error "invalid year-month format") ∧
    (∀ (input : String),
      (CLI.splitSeg '-' (CLI.trimChars input.toList)).length = 3 →
      CLI.parseFullDate (CLI.trimChars input.toList) = none →
      CLI.promptDate input d = .error "invalid date format") := by
  refine ⟨rfl, rfl, rfl, rfl, rfl, ?_, ?_, ?_, ?_, ?_, ?_⟩
  · intro input y hne hlen hy
    rw [CLI.promptDate_of_length_one input d hne hlen, hy]
  · intro input y m hlen hym h1 h2
    rw [CLI.promptDate_of_length_two input d hlen, hym]
    have : ¬(m < 1 ∨ 12 < m) := by omega
    simp [this]
  · intro input y m hlen hym hm
    rw [CLI.promptDate_of_length_two input d hlen, hym]
    simp [hm]
  · intro input hne hlen hy
    rw [CLI.promptDate_of_length_one input d hne hlen, hy]
  · intro input hlen hym
    rw [CLI.promptDate_of_length_two input d hlen, hym]
  · intro input hlen hpf
    rw [CLI.promptDate_of_length_three input d hlen, hpf]

namespace Reddit

theorem redditFetchPages_isSome (provider : String → Page) :
    ∀ (n : Nat) (cursor : String),
    ((provider (cursorFrom provider cursor n)).items = [] ∨
      (provider (cursorFrom provider cursor n)).after = "") →
    (fetchPages provider (n + 1) cursor).isSome := by
  intro n
  induction n with
  | zero =>
    intro cursor h
    simp only [cursorFrom] at h
    unfold fetchPages
    rcases h with h | h
    · simp [h]
    · by_cases hi : (provider cursor).items.isEmpty <;> simp [h, hi]
  | succ n ih =>
    intro cursor h
    simp only [cursorFrom] at h
    unfold fetchPages
    by_cases hi : (provider cursor).items.isEmpty
    · simp [hi]
    · by_cases ha : (provider cursor).after = ""
      · simp [hi, ha]
      · simpa [hi, ha] using ih (provider cursor).after h

end Reddit

namespace Twitter

theorem twitterFetchPages_isSome (provider : String → Page) :
    ∀ (n : Nat) (cursor : String),
    ((provider (cursorFrom provider cursor n)).data = [] ∨
      (provider (cursorFrom provider cursor n)).nextToken = "") →
    (fetchPages provider (n + 1) cursor).isSome := by
  intro n
  induction n with
  | zero =>
    intro cursor h
    simp only [cursorFrom] at h
    unfold fetchPages
    rcases h with h | h
    · simp [h]
    · by_cases hi : (provider cursor).data.isEmpty <;> simp [h, hi]
  | succ n ih =>
    intro cursor h
    simp only [cursorFrom] at h
    unfold fetchPages
    by_cases hi : (provider cursor).data.isEmpty
    · simp [hi]
    · by_cases hn : (provider cursor).nextToken = ""
      · simp [hi, hn]
      · simpa [hi, hn] using ih (provider cursor).nextToken h

end Twitter

/-- C9: pagination terminates against a well-behaved provider. If the
cursor chain of a deterministic provider reaches, within n steps, a
page with no items (Reddit) or an empty Data list (Twitter), or an
empty continuation cursor (After, NextToken), then the pagination loop,
run with fuel n + 1, completes by its own break conditions — it fetches
at most n + 1 pages and never loops forever. -/
theorem claim_C9_pagination_terminates
    (rprov : String → Reddit.Page) (tprov : String → Twitter.Page)
    (n m : Nat) (hr : Reddit.stopsAt rprov n) (ht : Twitter.stopsAt tprov m) :
    (Reddit.fetchPages rprov (n + 1) "").isSome ∧
    (Twitter.fetchPages tprov (m + 1) "").isSome :=
  ⟨Reddit.redditFetchPages_isSome rprov n "" hr,
   Twitter.twitterFetchPages_isSome tprov m "" ht⟩

/-- C9 witness: a provider that immediately answers an empty page stops
both pagination loops on the first fetch. -/
theorem claim_C9_pagination_terminates_witness :
    (Reddit.fetchPages (fun _ => ⟨[], ""⟩) 1 "").isSome ∧
    (Twitter.fetchPages (fun _ => ⟨[], ""⟩) 1 "").isSome :=
  claim_C9_pagination_terminates (fun _ => ⟨[], ""⟩) (fun _ => ⟨[], ""⟩)
    0 0 (Or.inl rfl) (Or.inl rfl)

/-- C10: a fetched tweet whose ID resolves to the empty string is
silently skipped: the per-tweet loop body leaves the accumulator — both
tallies and the engaged-tweet trace — exactly unchanged, for every
selector and every cutoff, so no delete call is issued for it even when
it was created before the cutoff and matches the selector (the skip
happens before the selector is consulted). -/
theorem claim_C10_empty_id_skipped (ct : String) (cutoff : Instant)
    (del : String → Nat → Twitter.DelResult) (acc : Twitter.Acc)
    (t : Twitter.Tweet) (h : t.id = "") :
    Twitter.processTweet ct cutoff del acc t = acc := by
  unfold Twitter.processTweet
  by_cases hc : t.createdAt < cutoff <;> simp [hc, h]

/-- C10 witness: a concrete empty-ID tweet created before the cutoff
and matching the all selector leaves the starting accumulator
unchanged. -/
theorem claim_C10_empty_id_skipped_witness :
    Twitter.processTweet "all" 10 (fun _ _ => Twitter.DelResult.ok)
      Twitter.Acc.start ⟨"", "old tweet", 0, []⟩ = Twitter.Acc.start :=
  claim_C10_empty_id_skipped "all" 10 (fun _ _ => Twitter.DelResult.ok)
    Twitter.Acc.start ⟨"", "old tweet", 0, []⟩ rfl

end GoDelSocials
